import Mathlib

/-
  Shallow embedding of the NewsApp repository (React frontend `src/App.js`,
  components, and the Express backend proxy) for verification of the
  query-construction, response-normalization and fetch-lifecycle logic.

  JavaScript strings are modelled as Lean `String`; a JS value that may be
  `undefined`/`null` is `Option String`; JS truthiness of such a value is
  `strTruthy` (both `undefined`/`null` and the empty string are falsy).
  Timestamps (`Date.getTime()`) are `Int` milliseconds since the Unix epoch;
  `Date.prototype.toISOString` is modelled by the standard civil-from-days
  calendar algorithm, which is what ECMA-262 specifies for UTC date fields.
-/

namespace NewsApp

/-- Truthiness of a possibly-absent JS string: `undefined`, `null` and `""`
are falsy, every other string is truthy. -/
def strTruthy : Option String → Bool
  | none => false
  | some s => s ≠ ""

/-- The JS `x || dflt` idiom on a possibly-absent string. -/
def jsOrString (v : Option String) (dflt : String) : String :=
  match v with
  | some s => if s = "" then dflt else s
  | none => dflt

/-- Whitespace characters recognised by `String.prototype.trim`
(ECMA-262 WhiteSpace and LineTerminator code points; the common Zs members). -/
def jsIsWhitespace (c : Char) : Bool :=
  c == ' ' || c == '\t' || c == '\n' || c == '\r' ||
  c.val == 0x0B || c.val == 0x0C || c.val == 0xA0 ||
  c.val == 0x1680 || c.val == 0x2000 || c.val == 0x2001 || c.val == 0x2002 ||
  c.val == 0x2003 || c.val == 0x2004 || c.val == 0x2005 || c.val == 0x2006 ||
  c.val == 0x2007 || c.val == 0x2008 || c.val == 0x2009 || c.val == 0x200A ||
  c.val == 0x2028 || c.val == 0x2029 || c.val == 0x202F || c.val == 0x205F ||
  c.val == 0x3000 || c.val == 0xFEFF

/-- `String.prototype.trim`: strip leading and trailing whitespace. -/
def jsTrim (s : String) : String :=
  ⟨((s.data.dropWhile jsIsWhitespace).reverse.dropWhile jsIsWhitespace).reverse⟩

/-! ## Date computation (`getDateFrom` in `src/App.js`) -/

/-- The `switch (range)` statement inside `getDateFrom`: number of days to
subtract; 1 for `today`, 7 for `week`, 30 for `month`, default 7. -/
def daysAgoOf (range : String) : Int :=
  if range = "today" then 1
  else if range = "week" then 7
  else if range = "month" then 30
  else 7

/-- Milliseconds in one day, the `24 * 60 * 60 * 1000` constant. -/
def msPerDay : Int := 86400000

/-- UTC day number (days since the Unix epoch) of a millisecond timestamp,
as used by `Date.prototype.toISOString` (floor division, also for negative
timestamps). -/
def epochDayOfMillis (ms : Int) : Int :=
  Int.fdiv ms msPerDay

/-- Civil calendar date `(year, month, day)` of a day number counted from
1970-01-01, per the proleptic Gregorian calendar used by ECMA-262 Date
(Howard Hinnant's `civil_from_days` algorithm). -/
def civilFromDays (z0 : Int) : Int × Nat × Nat :=
  let z : Int := z0 + 719468
  let era : Int := Int.fdiv z 146097
  let doe : Nat := (z - era * 146097).toNat
  let yoe : Nat := (doe - doe / 1460 + doe / 36524 - doe / 146096) / 365
  let y : Int := (yoe : Int) + era * 400
  let doy : Nat := doe - (365 * yoe + yoe / 4 - yoe / 100)
  let mp : Nat := (5 * doy + 2) / 153
  let d : Nat := doy - (153 * mp + 2) / 5 + 1
  let m : Nat := if mp < 10 then mp + 3 else mp - 9
  (y + (if m ≤ 2 then 1 else 0), m, d)

/-- Zero-pad a number to two digits, as in ISO month/day fields. -/
def pad2 (n : Nat) : String :=
  if n < 10 then "0" ++ toString n else toString n

/-- Zero-pad a year to four digits (the `toISOString` year format for years
0 to 9999, which covers every date this application can produce). -/
def pad4 (n : Nat) : String :=
  if n < 10 then "000" ++ toString n
  else if n < 100 then "00" ++ toString n
  else if n < 1000 then "0" ++ toString n
  else toString n

/-- Format a civil date as `YYYY-MM-DD`, the part of
`Date.prototype.toISOString()` before the `T` separator. -/
def formatISODate : Int × Nat × Nat → String
  | (y, m, d) => pad4 y.toNat ++ "-" ++ pad2 m ++ "-" ++ pad2 d

/-- `getDateFrom` from `src/App.js`: subtract `daysAgo` days worth of
milliseconds from the current timestamp and keep the `YYYY-MM-DD` part of
the ISO string. -/
def getDateFrom (range : String) (nowMs : Int) : String :=
  let daysAgo := daysAgoOf range
  let pastMs := nowMs - daysAgo * msPerDay
  formatISODate (civilFromDays (epochDayOfMillis pastMs))

/-! ## Filter state and query parameters -/

/-- The `filters` state object of the `App` component. -/
structure FilterState where
  language : String
  dateRange : String
  source : String
deriving DecidableEq, Repr

/-- The default filter state (`useState` initialiser in `App`). -/
def defaultFilters : FilterState :=
  { language := "en", dateRange := "week", source := "all" }

/-- `handleFilterChange` from `src/App.js`: spread the previous filters and
overwrite the named field. A `filterType` other than the three known fields
leaves all three modelled fields unchanged. -/
def handleFilterChange (filterType value : String) (prevFilters : FilterState) :
    FilterState :=
  if filterType = "language" then { prevFilters with language := value }
  else if filterType = "dateRange" then { prevFilters with dateRange := value }
  else if filterType = "source" then { prevFilters with source := value }
  else prevFilters

/-- The query string built by `fetchNews` and received by the backend as
`req.query`: each field is `some v` when the key is present. -/
structure QueryParams where
  q : Option String := none
  language : Option String := none
  fromDate : Option String := none
  sources : Option String := none
  sortBy : Option String := none
deriving DecidableEq, Repr

/-- The `URLSearchParams` construction in `fetchNews` (`src/App.js`):
`q`, `language`, `from` and `sortBy` always, `sources` only when the source
filter is not `all`. -/
def frontendNewsQuery (searchQuery : String) (filters : FilterState)
    (nowMs : Int) : QueryParams :=
  { q := some searchQuery
    language := some filters.language
    fromDate := some (getDateFrom filters.dateRange nowMs)
    sortBy := some "publishedAt"
    sources := if filters.source ≠ "all" then some filters.source else none }

/-- The parameter object sent to the upstream NewsAPI `everything` endpoint. -/
structure UpstreamParams where
  apiKey : String
  pageSize : Nat
  q : Option String := none
  language : Option String := none
  fromDate : Option String := none
  sources : Option String := none
  sortBy : Option String := none
deriving DecidableEq, Repr

/-- `buildNewsAPIParams` from the backend server: start from
`{apiKey, pageSize: 20}`, add `q`/`language`/`from`/`sources` under the
exact truthiness conditions of the source, and set
`sortBy = filters.sortBy || 'publishedAt'`. -/
def buildNewsAPIParams (apiKey : String) (filters : QueryParams) :
    UpstreamParams :=
  let params : UpstreamParams := { apiKey := apiKey, pageSize := 20 }
  let params :=
    if strTruthy filters.q then { params with q := filters.q } else params
  let params :=
    if strTruthy filters.language && filters.language != some "all" then
      { params with language := filters.language }
    else params
  let params :=
    if strTruthy filters.fromDate then { params with fromDate := filters.fromDate }
    else params
  let params :=
    if strTruthy filters.sources && filters.sources != some "all" then
      { params with sources := filters.sources }
    else params
  { params with sortBy := some (jsOrString filters.sortBy "publishedAt") }

/-- The composed Query Builder: the frontend encodes `(query, filters)` into
a request query string and the backend turns it into upstream parameters. -/
def builtNewsParams (searchQuery : String) (filters : FilterState)
    (nowMs : Int) (apiKey : String) : UpstreamParams :=
  buildNewsAPIParams apiKey (frontendNewsQuery searchQuery filters nowMs)

/-! ## Articles and the fetch lifecycle (`App` component state) -/

/-- An article as delivered by the API; optional fields may be absent
(`Article` data model: missing fields must not break rendering). -/
structure Article where
  title : String
  description : Option String := none
  url : String := ""
  urlToImage : Option String := none
  sourceName : String := ""
  publishedAt : String := ""
  author : Option String := none
deriving DecidableEq, Repr

/-- The fetch-related React state of the `App` component: the `articles`,
`loading` and `error` `useState` hooks. -/
structure AppState where
  articles : List Article
  loading : Bool
  error : Option String
deriving DecidableEq, Repr

/-- The initial `App` state: no articles, not loading, no error. -/
def initialState : AppState :=
  { articles := [], loading := false, error := none }

/-- Message set by `fetchNews` when a successful response carries an empty
article list. -/
def noArticlesMsg : String :=
  "No articles found. Try different search terms or filters."

/-- Fallback message when the backend reports an error without a message. -/
def fetchFailedMsg : String := "Failed to fetch news"

/-- Message set by the `catch` branch of `fetchNews` on a transport error. -/
def connectFailedMsg : String :=
  "Failed to connect to the server. Make sure the backend is running on port 5000."

/-- The possible outcomes of the backend call awaited inside `fetchNews`. -/
inductive FetchResponse where
  /-- `data.status === 'success'` with the delivered article list. -/
  | success (articles : List Article)
  /-- `data.status !== 'success'`; the optional `data.error` message. -/
  | apiError (errMsg : Option String)
  /-- the `fetch`/`json` call threw: network error or malformed body. -/
  | networkFailure
deriving DecidableEq, Repr

/-- The synchronous prefix of `fetchNews`: `setLoading(true)` and
`setError(null)` before the request is issued. -/
def fetchStart (s : AppState) : AppState :=
  { s with loading := true, error := none }

/-- The continuation of `fetchNews` that runs when the response arrives:
the success branch stores the articles (and sets the no-results message
when the list is empty), the error branches store a message; the `finally`
block clears `loading` in every case. -/
def applyResponse (s : AppState) : FetchResponse → AppState
  | FetchResponse.success arts =>
      { s with articles := arts
               error := if arts.isEmpty then some noArticlesMsg else s.error
               loading := false }
  | FetchResponse.apiError m =>
      { s with error := some (jsOrString m fetchFailedMsg), loading := false }
  | FetchResponse.networkFailure =>
      { s with error := some connectFailedMsg, loading := false }

/-- One whole uninterleaved run of `fetchNews`: start, then apply the
response when it arrives. -/
def fetchNews (s : AppState) (r : FetchResponse) : AppState :=
  applyResponse (fetchStart s) r

/-- The fetch effect of `App` (`useEffect` on `[searchQuery, filters]`):
call `fetchNews` only when the trimmed query is non-empty. Returns the
state after the synchronous part of the trigger and whether a network
request was issued. -/
def triggerFetch (searchQuery : String) (s : AppState) : AppState × Bool :=
  if jsTrim searchQuery ≠ "" then (fetchStart s, true) else (s, false)

/-- What the results section of `App` renders. -/
inductive View where
  | spinner
  | errorBanner (msg : String)
  | results (articles : List Article)
  | welcome
  | blank
deriving DecidableEq, Repr

/-- The render logic of the results section in `App`: the spinner while
`loading`; the error banner when `error` is truthy and not loading; the
article grid when articles are present; the welcome message when there is
no query; otherwise nothing. -/
def render (s : AppState) (searchQuery : String) : View :=
  if s.loading then View.spinner
  else if strTruthy s.error then View.errorBanner (s.error.getD "")
  else if s.articles.length > 0 then View.results s.articles
  else if searchQuery = "" then View.welcome
  else View.blank

/-- Interleaving events for overlapping fetches: a trigger runs the
synchronous prefix of `fetchNews`; an arrival runs its continuation on the
response. The code carries no request token, so an arrival is applied
unconditionally. -/
inductive Event where
  | trigger
  | arrive (r : FetchResponse)
deriving DecidableEq, Repr

/-- One interleaving step. -/
def stepEvent (s : AppState) : Event → AppState
  | Event.trigger => fetchStart s
  | Event.arrive r => applyResponse s r

/-- Run a sequence of interleaving events. -/
def runEvents (s : AppState) (es : List Event) : AppState :=
  es.foldl stepEvent s

/-! ## Backend error normalization (`handleAPIError` in the server) -/

/-- The upstream response attached to an axios error: HTTP status and the
optional `data.message` field. -/
structure UpstreamErrorResponse where
  status : Nat
  message : Option String := none
deriving DecidableEq, Repr

/-- A normalized backend error: the user-facing `error` message and the
machine-readable `code`. -/
structure APIErrorResponse where
  error : String
  code : String
deriving DecidableEq, Repr

/-- `handleAPIError` from the backend server: classify an axios error
(`none` means no response was received) into a message and code. -/
def handleAPIError (response : Option UpstreamErrorResponse) : APIErrorResponse :=
  match response with
  | some r =>
    let message := jsOrString r.message "Unknown error"
    if r.status = 401 then
      { error := "Invalid API key. Please check your NewsAPI key."
        code := "INVALID_API_KEY" }
    else if r.status = 429 then
      { error := "API rate limit exceeded. Free tier allows 100 requests per day."
        code := "RATE_LIMIT_EXCEEDED" }
    else if r.status = 426 then
      { error := "This request requires a paid NewsAPI plan."
        code := "UPGRADE_REQUIRED" }
    else if r.status = 500 then
      { error := "NewsAPI server error. Please try again later."
        code := "SERVER_ERROR" }
    else
      { error := message, code := "API_ERROR" }
  | none =>
    { error := "Unable to connect to NewsAPI. Check your internet connection."
      code := "NETWORK_ERROR" }

/-! ## Backend startup guard and `truncateText` -/

/-- Outcome of the backend module initialisation. -/
inductive StartupOutcome where
  /-- `process.exit(1)` was called before any route was installed. -/
  | exitBeforeServing
  /-- the guard passed and the server proceeds to listen. -/
  | serve
deriving DecidableEq, Repr

/-- The `NEWS_API_KEY` startup guard of the backend server: exit with
status 1 when the environment value is absent (or empty, hence falsy),
otherwise proceed to serve. -/
def serverStartup (newsApiKey : Option String) : StartupOutcome :=
  if strTruthy newsApiKey then StartupOutcome.serve
  else StartupOutcome.exitBeforeServing

/-- `truncateText` from `src/components/NewsCard.js`: empty or absent text
becomes `""`; short text is returned unchanged; long text is cut to its
first `maxLength` characters (`substring(0, maxLength)`) and suffixed with
an ellipsis. -/
def truncateText (text : Option String) (maxLength : Nat) : String :=
  match text with
  | none => ""
  | some t =>
    if t = "" then ""
    else if t.length ≤ maxLength then t
    else ⟨t.data.take maxLength⟩ ++ "..."

/-! ## Specification-side definitions for the round-trip claim -/

/-- The effective upstream filter a `FilterState` denotes, following the
wording of the specification: the language restriction (`none` means all
languages), the `from` date computed from the date range, and the source
restriction (`none` means all sources). -/
def specEffectiveFilter (f : FilterState) (now : Int) :
    Option String × Option String × Option String :=
  ((if f.language = "all" then none else some f.language),
   some (getDateFrom f.dateRange now),
   (if f.source = "all" then none else some f.source))

/-- The (language, from, sources) triple actually sent to the upstream
API by the backend. -/
def upstreamEffectiveFilter (p : UpstreamParams) :
    Option String × Option String × Option String :=
  (p.language, p.fromDate, p.sources)

/-! ## Helper lemmas -/

/-- Subtracting a whole number of days of milliseconds shifts the UTC day
number by exactly that many days, independent of the time of day. -/
lemma epochDay_shift (now N : Int) :
    epochDayOfMillis (now - N * msPerDay) = epochDayOfMillis now - N := by
  unfold epochDayOfMillis msPerDay
  rw [Int.fdiv_eq_ediv _ (by norm_num), Int.fdiv_eq_ediv _ (by norm_num)]
  have h : now - N * 86400000 = now + (-N) * 86400000 := by ring
  rw [h, Int.add_mul_ediv_right _ _ (by norm_num : (86400000:Int) ≠ 0)]
  ring

/-- The formatted `from` date is never the empty string (it contains two
dash separators), so it always survives the backend truthiness check. -/
lemma getDateFrom_ne_empty (range : String) (nowMs : Int) :
    getDateFrom range nowMs ≠ "" := by
  unfold getDateFrom formatISODate
  intro h
  obtain ⟨y, m, d⟩ := civilFromDays (epochDayOfMillis (nowMs - daysAgoOf range * msPerDay))
  have h2 := congrArg String.length h
  simp [String.length_append] at h2
  exact absurd h2.1.1.1.2 (by decide)

/-- Full evaluation of the composed frontend/backend parameter builder on a
well-formed filter state (non-empty language code and source id). -/
lemma builtNewsParams_eval (query : String) (f : FilterState) (now : Int)
    (key : String) (hl : f.language ≠ "") (hs : f.source ≠ "") :
    builtNewsParams query f now key =
      { apiKey := key
        pageSize := 20
        q := if query = "" then none else some query
        language := if f.language = "all" then none else some f.language
        fromDate := some (getDateFrom f.dateRange now)
        sources := if f.source = "all" then none else some f.source
        sortBy := some "publishedAt" } := by
  have hd := getDateFrom_ne_empty f.dateRange now
  unfold builtNewsParams frontendNewsQuery buildNewsAPIParams
  rcases eq_or_ne query "" with hq | hq <;>
    rcases eq_or_ne f.language "all" with hla | hla <;>
      rcases eq_or_ne f.source "all" with hsa | hsa <;>
        simp [strTruthy, jsOrString, hq, hla, hsa, hl, hs, hd]

/-! ## Claim theorems -/

/-- Claim C1, counterexample: for the whitespace-only query `" "` (which is
empty after trimming) the composed Query Builder still includes the `q`
key, because both the frontend (which always appends `q`) and the backend
(which tests plain truthiness, not trimmed emptiness) keep it. The claim
as stated requires `q` to be omitted here. -/
theorem builtNewsParams_trim_counterexample :
    jsTrim " " = "" ∧
    (builtNewsParams " " defaultFilters 1700000000000 "key").q = some " " := by
  exact ⟨rfl, rfl⟩

/-- Claim C1, amended: for well-formed filters (non-empty language code and
source id), the built upstream parameters have `q` present iff the query is
non-empty as given (no trimming), `language` present iff not the sentinel
`all`, `from` always present, `sources` present (with the exact filter
value) iff the source filter is not `all`, constant `sortBy = publishedAt`
and the fixed page size 20. -/
theorem builtNewsParams_keys (query : String) (f : FilterState) (now : Int)
    (key : String) (hl : f.language ≠ "") (hs : f.source ≠ "") :
    (builtNewsParams query f now key).q = (if query = "" then none else some query) ∧
    (builtNewsParams query f now key).language =
      (if f.language = "all" then none else some f.language) ∧
    (builtNewsParams query f now key).fromDate = some (getDateFrom f.dateRange now) ∧
    (builtNewsParams query f now key).sources =
      (if f.source = "all" then none else some f.source) ∧
    (builtNewsParams query f now key).sortBy = some "publishedAt" ∧
    (builtNewsParams query f now key).pageSize = 20 := by
  rw [builtNewsParams_eval query f now key hl hs]
  exact ⟨rfl, rfl, rfl, rfl, rfl, rfl⟩

/-- Concrete instantiation of the amended C1 theorem at the default filter
state and the query `technology`. -/
theorem builtNewsParams_keys_witness :
    (builtNewsParams "technology" defaultFilters 1700000000000 "key").q =
      some "technology" ∧
    (builtNewsParams "technology" defaultFilters 1700000000000 "key").sources =
      none ∧
    (builtNewsParams "technology" defaultFilters 1700000000000 "key").sortBy =
      some "publishedAt" := by
  have h := builtNewsParams_keys "technology" defaultFilters 1700000000000 "key"
    (by decide) (by decide)
  exact ⟨h.1.trans (by decide), h.2.2.2.1.trans (by decide), h.2.2.2.2.1⟩

/-- Claim C2: the `from` parameter is the calendar date (formatted
`YYYY-MM-DD` by `formatISODate`) of the UTC day exactly N days before the
current UTC day, with N = 1 for `today`, 7 for `week`, 30 for `month`, and
7 for every other value; two timestamps on the same UTC day yield the same
output, so the result is independent of the time of day. -/
theorem getDateFrom_spec (range : String) (nowMs : Int) :
    (daysAgoOf "today" = 1 ∧ daysAgoOf "week" = 7 ∧ daysAgoOf "month" = 30) ∧
    (range ≠ "today" → range ≠ "week" → range ≠ "month" → daysAgoOf range = 7) ∧
    getDateFrom range nowMs =
      formatISODate (civilFromDays (epochDayOfMillis nowMs - daysAgoOf range)) ∧
    (∀ t u : Int, epochDayOfMillis t = epochDayOfMillis u →
      getDateFrom range t = getDateFrom range u) := by
  have key : ∀ v : Int, getDateFrom range v =
      formatISODate (civilFromDays (epochDayOfMillis v - daysAgoOf range)) := by
    intro v
    show formatISODate (civilFromDays (epochDayOfMillis (v - daysAgoOf range * msPerDay))) = _
    rw [epochDay_shift]
  refine ⟨⟨rfl, rfl, rfl⟩, ?_, key nowMs, ?_⟩
  · intro h1 h2 h3
    unfold daysAgoOf
    simp [h1, h2, h3]
  · intro t u h
    rw [key t, key u, h]

/-- Concrete instantiation of C2: an unrecognized range falls back to 7
days, and two timestamps within the same UTC day give the same date. -/
theorem getDateFrom_spec_witness :
    daysAgoOf "yesterday" = 7 ∧
    getDateFrom "week" 1700000000000 = getDateFrom "week" 1700004000000 := by
  have h1 := getDateFrom_spec "yesterday" 1700000000000
  have h2 := getDateFrom_spec "week" 1700000000000
  exact ⟨h1.2.1 (by decide) (by decide) (by decide),
         h2.2.2.2 1700000000000 1700004000000 (by decide)⟩

/-- Claim C3: `handleAPIError` maps each upstream failure to exactly the
message/code pair of the specification table: 401 to the invalid-key
message (`INVALID_API_KEY`, spec `InvalidCredential`), 429 to the
rate-limit message (`RATE_LIMIT_EXCEEDED`, spec `QuotaExceeded`), 426 to
the paid-plan message (`UPGRADE_REQUIRED`, spec `PlanRequired`), 500 to
the retry-later message (`SERVER_ERROR`, spec `UpstreamUnavailable`), any
other status with a response passes the upstream message through with
`API_ERROR` (spec `UpstreamError`), and a missing response gives the fixed
connection-failure message with `NETWORK_ERROR` (spec
`NetworkUnreachable`). -/
theorem handleAPIError_taxonomy :
    (∀ m, handleAPIError (some { status := 401, message := m }) =
      { error := "Invalid API key. Please check your NewsAPI key."
        code := "INVALID_API_KEY" }) ∧
    (∀ m, handleAPIError (some { status := 429, message := m }) =
      { error := "API rate limit exceeded. Free tier allows 100 requests per day."
        code := "RATE_LIMIT_EXCEEDED" }) ∧
    (∀ m, handleAPIError (some { status := 426, message := m }) =
      { error := "This request requires a paid NewsAPI plan."
        code := "UPGRADE_REQUIRED" }) ∧
    (∀ m, handleAPIError (some { status := 500, message := m }) =
      { error := "NewsAPI server error. Please try again later."
        code := "SERVER_ERROR" }) ∧
    (∀ s msg, s ≠ 401 → s ≠ 429 → s ≠ 426 → s ≠ 500 → msg ≠ "" →
      handleAPIError (some { status := s, message := some msg }) =
        { error := msg, code := "API_ERROR" }) ∧
    handleAPIError none =
      { error := "Unable to connect to NewsAPI. Check your internet connection."
        code := "NETWORK_ERROR" } := by
  refine ⟨fun m => rfl, fun m => rfl, fun m => rfl, fun m => rfl, ?_, rfl⟩
  intro s msg h1 h2 h3 h4 h5
  simp [handleAPIError, jsOrString, h1, h2, h3, h4, h5]

/-- Concrete instantiation of C3 at an unlisted status with an upstream
message. -/
theorem handleAPIError_taxonomy_witness :
    handleAPIError (some { status := 404, message := some "Bad request" }) =
      { error := "Bad request", code := "API_ERROR" } := by
  exact handleAPIError_taxonomy.2.2.2.2.1 404 "Bad request"
    (by decide) (by decide) (by decide) (by decide) (by decide)

/-- Claim C4, counterexample: after a successful response with an empty
article list, the `App` component stores the no-results message in the same
`error` state used for failures, and the results section renders the
`error-message` banner (the `View.errorBanner` constructor), not a distinct
informational view — the claim requires the UI not to show an error
banner. -/
theorem emptyResults_banner_counterexample :
    (fetchNews initialState (FetchResponse.success [])).articles = [] ∧
    (fetchNews initialState (FetchResponse.success [])).error = some noArticlesMsg ∧
    render (fetchNews initialState (FetchResponse.success [])) "technology" =
      View.errorBanner noArticlesMsg := by
  exact ⟨rfl, rfl, rfl⟩

/-- Claim C4, amended: an empty-list success still takes the success branch
(the article list is replaced by the empty list; the failure branch never
touches `articles`) and surfaces the fixed no-articles message, but that
message is stored in the same `error` state as failures and is displayed
through the same error banner, not through a distinct informational view. -/
theorem emptyResults_success_with_banner (s : AppState) (q : String) :
    (fetchNews s (FetchResponse.success [])).articles = [] ∧
    (fetchNews s (FetchResponse.success [])).loading = false ∧
    (fetchNews s (FetchResponse.success [])).error = some noArticlesMsg ∧
    render (fetchNews s (FetchResponse.success [])) q =
      View.errorBanner noArticlesMsg := by
  refine ⟨rfl, rfl, rfl, ?_⟩
  simp [render, fetchNews, applyResponse, fetchStart, strTruthy, noArticlesMsg,
    Option.getD]

/-- Claim C5: when the query is whitespace-only (empty after trimming), the
fetch effect issues no network call and leaves the state untouched — in
particular it does not enter the loading state and sets no error. -/
theorem emptyQuery_no_fetch (q : String) (h : jsTrim q = "") (s : AppState) :
    triggerFetch q s = (s, false) := by
  simp [triggerFetch, h]

/-- Concrete instantiation of C5 on a whitespace-only query from the idle
initial state. -/
theorem emptyQuery_no_fetch_witness :
    triggerFetch "   " initialState = (initialState, false) :=
  emptyQuery_no_fetch "   " (by decide) initialState

/-- Claim C6, counterexample: two triggers fire in succession; the second
trigger's response (list `[B]`) arrives first and the first trigger's
response (list `[A]`) arrives last. The code applies every arriving
response unconditionally (there is no request token or cancellation), so
the displayed articles end up being the stale first trigger's `[A]`, not
the latest trigger's `[B]` as the claim requires. -/
theorem staleResponse_displayed_counterexample :
    (runEvents initialState
        [Event.trigger, Event.trigger,
         Event.arrive (FetchResponse.success [{ title := "B" }]),
         Event.arrive (FetchResponse.success [{ title := "A" }])]).articles =
      [{ title := "A" }] ∧
    ({ title := "A" } : Article) ≠ { title := "B" } := by
  exact ⟨rfl, by decide⟩

/-- Claim C6, amended: the displayed result is always the one whose
response arrived last, regardless of which trigger it belongs to: an
arriving success response unconditionally overwrites the article list, so
arrival order, not trigger order, decides what is shown. -/
theorem lastArrival_wins (s : AppState) (es : List Event) (arts : List Article) :
    (runEvents s (es ++ [Event.arrive (FetchResponse.success arts)])).articles =
      arts := by
  simp [runEvents, List.foldl_append, stepEvent, applyResponse]

/-- Claim C7: round-trip of a well-formed `FilterState` through the
frontend encoding and the backend decoding: the effective language, `from`
date and source restriction sent to the upstream API are exactly the ones
the `FilterState` denotes. -/
theorem filterState_roundtrip (query : String) (f : FilterState) (now : Int)
    (key : String) (hl : f.language ≠ "") (hs : f.source ≠ "") :
    upstreamEffectiveFilter (builtNewsParams query f now key) =
      specEffectiveFilter f now := by
  rw [upstreamEffectiveFilter, builtNewsParams_eval query f now key hl hs,
    specEffectiveFilter]

/-- Concrete instantiation of C7 at the default filter state. -/
theorem filterState_roundtrip_witness :
    upstreamEffectiveFilter
        (builtNewsParams "technology" defaultFilters 1700000000000 "key") =
      (some "en", some "2023-11-07", none) := by
  exact (filterState_roundtrip "technology" defaultFilters 1700000000000 "key"
    (by decide) (by decide)).trans (by decide)

/-- Claim C8: the backend refuses to start (calls `process.exit(1)` before
installing any route) when the `NEWS_API_KEY` environment value is absent,
and proceeds to serve when a non-empty credential is present. -/
theorem serverStartup_requires_key :
    serverStartup none = StartupOutcome.exitBeforeServing ∧
    ∀ k : String, k ≠ "" → serverStartup (some k) = StartupOutcome.serve := by
  refine ⟨rfl, ?_⟩
  intro k hk
  simp [serverStartup, strTruthy, hk]

/-- Concrete instantiation of C8 with a missing and a present credential. -/
theorem serverStartup_requires_key_witness :
    serverStartup none = StartupOutcome.exitBeforeServing ∧
    serverStartup (some "secret-key") = StartupOutcome.serve :=
  ⟨serverStartup_requires_key.1,
   serverStartup_requires_key.2 "secret-key" (by decide)⟩

/-- Claim C9: `truncateText` is total and bounded: absent or empty text
gives `""`; text of length at most `maxLength` is returned unchanged;
longer text becomes its first `maxLength` characters followed by `...`;
the output never exceeds `maxLength + 3` characters. -/
theorem truncateText_spec (text : Option String) (maxLength : Nat) :
    ((text = none ∨ text = some "") → truncateText text maxLength = "") ∧
    (∀ t, text = some t → t.length ≤ maxLength → truncateText text maxLength = t) ∧
    (∀ t, text = some t → maxLength < t.length →
      truncateText text maxLength = ⟨t.data.take maxLength⟩ ++ "...") ∧
    (truncateText text maxLength).length ≤ maxLength + 3 := by
  refine ⟨?_, ?_, ?_, ?_⟩
  · rintro (rfl | rfl) <;> rfl
  · rintro t rfl h
    by_cases ht : t = ""
    · rw [ht]
      rfl
    · simp [truncateText, ht, h]
  · rintro t rfl h
    have ht : t ≠ "" := by
      intro he
      rw [he] at h
      exact absurd h (by simp [String.length])
    simp [truncateText, ht, Nat.not_le.mpr h]
  · cases text with
    | none => simp [truncateText]
    | some t =>
      by_cases ht : t = ""
      · simp [truncateText, ht, String.length]
      · by_cases hle : t.length ≤ maxLength
        · simp only [truncateText, ht, hle, if_true, if_false, if_neg, if_pos]
          omega
        · have hlen : (truncateText (some t) maxLength).length =
              (t.data.take maxLength).length + 3 := by
            simp [truncateText, ht, hle, String.length_append]
            rfl
          rw [hlen, List.length_take]
          omega

/-- Concrete instantiation of C9: a long text is cut to ten characters
plus the ellipsis, a short one is unchanged, and absent text gives the
empty string. -/
theorem truncateText_spec_witness :
    truncateText (some "hello world, this is long") 10 = "hello worl..." ∧
    truncateText (some "short") 10 = "short" ∧
    truncateText none 10 = "" := by
  have h1 := truncateText_spec (some "hello world, this is long") 10
  have h2 := truncateText_spec (some "short") 10
  have h3 := truncateText_spec none 10
  exact ⟨(h1.2.2.1 _ rfl (by decide)).trans (by decide),
         h2.2.1 _ rfl (by decide),
         h3.1 (Or.inl rfl)⟩

/-- Claim C10: `handleFilterChange` is frame-preserving: updating any of
the three filter fields sets exactly that field to the new value and
leaves the other two unchanged. -/
theorem handleFilterChange_frame (prev : FilterState) (v : String) :
    ((handleFilterChange "language" v prev).language = v ∧
     (handleFilterChange "language" v prev).dateRange = prev.dateRange ∧
     (handleFilterChange "language" v prev).source = prev.source) ∧
    ((handleFilterChange "dateRange" v prev).dateRange = v ∧
     (handleFilterChange "dateRange" v prev).language = prev.language ∧
     (handleFilterChange "dateRange" v prev).source = prev.source) ∧
    ((handleFilterChange "source" v prev).source = v ∧
     (handleFilterChange "source" v prev).language = prev.language ∧
     (handleFilterChange "source" v prev).dateRange = prev.dateRange) := by
  refine ⟨⟨?_, ?_, ?_⟩, ⟨?_, ?_, ?_⟩, ⟨?_, ?_, ?_⟩⟩ <;> rfl

end NewsApp
